import Mathlib

/-!
Shallow embedding of `src/cli/tools/lint/plugins.rs` (the Deno lint plugin
host): the `LintPluginContainer` registry, the intrinsic ops
`op_lint_get_rule` / `op_lint_report`, the `PluginRunner` request handlers
(`load_plugins`, `get_rules_to_run`, `run_rules`, `take_diagnostics`,
`run_loop`) and the `PluginRunnerProxy` receive paths.

Rust `IndexMap<String, V>` is modelled as an association list
`List (String × V)` with insertion at the end (IndexMap preserves insertion
order and `insert` on a fresh key appends).  `v8::Global<v8::Function>`
callable references are modelled as opaque numeric handles (`FnRef`).
Fallible Rust code returning `Result<T, AnyError>` is modelled with
`Except LintError T`; a `custom_error(code, message)` is a `LintError`
carrying both strings.  Rust panics (`unwrap` / `unreachable`) appear as
`Option` (`none` = panic) where a claim is about their reachability.
-/

/-- Model of a `deno_core` `custom_error(code, message)` / `AnyError`:
the error class name and the message. -/
structure LintError where
  code : String
  message : String
deriving DecidableEq, Repr

/-- Opaque handle standing for a `v8::Global<v8::Function>` callable
reference. -/
abbrev FnRef := Nat

/-- Model of `deno_core::url::Url` (a `ModuleSpecifier`): the serialized URL
text. -/
structure Url where
  text : String
deriving DecidableEq, Repr

/-- Modelled from the spec: `ModuleSpecifier::parse` is the external WHATWG
URL parser (the `url` crate, not part of src/).  The host only ever parses
strings of the form `"file:///" ++ s`; for such an input the parser is in
path state with the special `file` scheme and an empty host, where the WHATWG
algorithm has no fatal error (disallowed code points are percent-encoded),
so parsing always succeeds.  Inputs without that prefix are conservatively
modelled as unparseable. -/
def urlParse (s : String) : Option Url :=
  if "file:///".data.isPrefixOf s.data then some ⟨s⟩ else none

/-- Model of `deno_lint::diagnostic::LintDiagnosticDetails` (the fields
`plugins.rs` constructs in `LintPluginContainer::report`). -/
structure LintDiagnosticDetails where
  message : String
  code : String
  hint : Option String
  fixes : List Unit
  custom_docs_url : Option String
  info : List String
deriving DecidableEq, Repr

/-- Model of `deno_lint::diagnostic::LintDiagnostic`.  `range` is `None` in
every diagnostic this host builds, so the payload of a present range is
irrelevant and modelled as `Unit`. -/
structure LintDiagnostic where
  specifier : Url
  range : Option Unit
  details : LintDiagnosticDetails
deriving DecidableEq, Repr

/-- Model of `LintPluginDesc` (plugins.rs lines 398-400): rule name to
callable reference, in insertion order. -/
structure LintPluginDesc where
  rules : List (String × FnRef)
deriving DecidableEq, Repr

/-- Model of `LintPluginContainer` (plugins.rs lines 402-406). -/
structure LintPluginContainer where
  plugins : List (String × LintPluginDesc)
  diagnostics : List LintDiagnostic
deriving DecidableEq, Repr

/-- Model of `LintPluginContainer::register` (plugins.rs lines 408-423).
Returns the Rust function's `Result` together with the updated container
(state passing for `&mut self`). -/
def LintPluginContainer.register (c : LintPluginContainer) (name : String)
    (desc : LintPluginDesc) : Except LintError Unit × LintPluginContainer :=
  if (c.plugins.map Prod.fst).contains name then
    (Except.error ⟨"AlreadyExists", name ++ " plugin already exists"⟩, c)
  else
    (Except.ok (), { c with plugins := c.plugins ++ [(name, desc)] })

/-- Model of `LintPluginContainer::report` (plugins.rs lines 425-441).
The `ModuleSpecifier::parse(...).unwrap()` at lines 428-429 is a potential
panic, modelled by `Option`: `none` is the panic branch. -/
def LintPluginContainer.report (c : LintPluginContainer) (id specifier message : String) :
    Option LintPluginContainer :=
  match urlParse ("file:///" ++ specifier) with
  | none => none
  | some url =>
    some { c with
      diagnostics := c.diagnostics ++
        [{ specifier := url
           range := none
           details :=
             { message := message
               code := id
               hint := none
               fixes := []
               custom_docs_url := none
               info := [] } }] }

/-- Model of `op_lint_get_rule` (plugins.rs lines 452-473).  The op takes an
immutable borrow of the container and returns only a `Result`, so it is a
pure function with no container output: it cannot mutate the registry. -/
def op_lint_get_rule (c : LintPluginContainer) (plugin_name rule_name : String) :
    Except LintError FnRef :=
  match c.plugins.lookup plugin_name with
  | none =>
    Except.error ⟨"NotFound", plugin_name ++ " plugin is not registered"⟩
  | some plugin =>
    match plugin.rules.lookup rule_name with
    | none =>
      Except.error ⟨"NotFound",
        "Plugin " ++ plugin_name ++ ", does not have " ++ rule_name ++ " rule"⟩
    | some rule => Except.ok rule

/-- Model of `op_lint_report` (plugins.rs lines 475-484): delegates to
`LintPluginContainer::report` on the mutably borrowed container. -/
def op_lint_report (c : LintPluginContainer) (id specifier message : String) :
    Option LintPluginContainer :=
  c.report id specifier message

/-- Model of `PluginDefinition` (plugins.rs lines 310-314) after
deserialization of a plugin module's default export: the plugin name and the
rule map (each `RuleDefinition.create` already converted to its callable
handle, as lines 282-287 do). -/
structure PluginDefinition where
  name : String
  rules : List (String × FnRef)
deriving DecidableEq, Repr

/-- Model of the module-evaluation and registration loop of
`PluginRunner::load_plugins` (plugins.rs lines 249-299).  Each list element
is the outcome of loading, evaluating and deserializing one plugin module —
the JS engine is external, so those outcomes are inputs of the model:
`Except.error e` is a failed `fut.await?` / `serde_v8::from_v8` (the `?` at
lines 250 and 272-273 aborts the whole call, keeping plugins registered
earlier in the same call), `Except.ok pd` is a successfully deserialized
`PluginDefinition`.  For a successful definition the built descriptor is
registered and the `register` result is discarded (`let _ =` at line 288).
The earlier load phase (lines 235-245) can only abort before any
registration and is not part of this function. -/
def PluginRunner.load_plugins :
    List (Except LintError PluginDefinition) → LintPluginContainer →
    Except LintError Unit × LintPluginContainer
  | [], c => (Except.ok (), c)
  | Except.error e :: _, c => (Except.error e, c)
  | Except.ok pd :: rest, c =>
    PluginRunner.load_plugins rest (c.register pd.name ⟨pd.rules⟩).2

/-- Model of `PluginRunner::get_rules_to_run` (plugins.rs lines 166-182):
snapshots `(plugin_name, rule names)` in registry insertion order.  The
`IndexMap::insert` at line 178 always sees a fresh key (plugin names are
unique in the registry), so the snapshot is an order-preserving map. -/
def PluginRunner.get_rules_to_run (c : LintPluginContainer) :
    List (String × List String) :=
  c.plugins.map (fun p => (p.1, p.2.rules.map Prod.fst))

/-- One invocation of the bootstrap entry point `runPluginRule`
(plugins.rs lines 209-216): the four argument strings, in order. -/
structure Invocation where
  fileName : String
  pluginName : String
  ruleName : String
  ast : String
deriving DecidableEq, Repr

/-- The observable effect of one script-side rule invocation.  Script code
can only reach the host through the two ops: `op_lint_report` appends
diagnostics (recorded here as the `(id, specifier, message)` triples it was
called with, in order) and the invocation finishes with `Ok` or an error
(line 217's `result`). -/
structure RuleOutcome where
  reports : List (String × String × String)
  result : Except LintError Unit

/-- The JS engine as an oracle: what each `runPluginRule` invocation (file
name, plugin name, rule name, serialized AST) does. -/
def Behavior := String → String → String → String → RuleOutcome

/-- Applies the report calls of one invocation to the container, in order
(each is `op_lint_report`; the parse of `"file:///" ++ specifier` never
fails, see `report_appends_one`, so the panic branch is collapsed here with
`Option.getD`). -/
def applyReports (reports : List (String × String × String))
    (c : LintPluginContainer) : LintPluginContainer :=
  reports.foldl
    (fun acc r => ((op_lint_report acc r.1 r.2.1 r.2.2).getD acc)) c

/-- Inner loop of `PluginRunner::run_rules` (plugins.rs lines 190-225) over
one plugin's rules: invokes `runPluginRule` with the constant file name
`"foo.js"` (line 195), the plugin name, the rule name and the serialized
AST.  The invocation's `result` is only logged (lines 217-224): it is
dropped here, and the loop continues unconditionally.  Returns the trace of
invocations and the final container. -/
def PluginRunner.runRulesOfPlugin (b : Behavior) (pluginName : String)
    (ast : String) :
    List String → LintPluginContainer → List Invocation × LintPluginContainer
  | [], c => ([], c)
  | ruleName :: rest, c =>
    let res := PluginRunner.runRulesOfPlugin b pluginName ast rest
      (applyReports (b "foo.js" pluginName ruleName ast).reports c)
    (Invocation.mk "foo.js" pluginName ruleName ast :: res.1, res.2)

/-- Outer loop of `PluginRunner::run_rules` (plugins.rs lines 184-229) over
the snapshot plan.  The Rust function's only exit is `Ok(())` at line 228
(per-rule errors are logged and discarded), so no error result is
modelled. -/
def PluginRunner.run_rules (b : Behavior) (ast : String) :
    List (String × List String) → LintPluginContainer →
    List Invocation × LintPluginContainer
  | [], c => ([], c)
  | pr :: rest, c =>
    let res₁ := PluginRunner.runRulesOfPlugin b pr.1 ast pr.2 c
    let res₂ := PluginRunner.run_rules b ast rest res₁.2
    (res₁.1 ++ res₂.1, res₂.2)

/-- Model of `PluginRunner::take_diagnostics` (plugins.rs lines 159-164):
`std::mem::take` returns the buffer and leaves it empty. -/
def PluginRunner.take_diagnostics (c : LintPluginContainer) :
    List LintDiagnostic × LintPluginContainer :=
  (c.diagnostics, { c with diagnostics := [] })

/-- Model of `PluginRunnerRequest` (plugins.rs lines 34-37).  `LoadPlugins`
carries the per-module load outcomes (see `PluginRunner.load_plugins`) in
place of the raw specifiers, since the engine is external. -/
inductive Request where
  | loadPlugins (outcomes : List (Except LintError PluginDefinition))
  | run (serializedAst : String)

/-- Model of `PluginRunnerResponse` (plugins.rs lines 39-42). -/
inductive Response where
  | loadPlugin (r : Except LintError Unit)
  | run (r : Except LintError (List LintDiagnostic))

/-- Handling of one `Run` request by the run loop (plugins.rs lines
133-149): snapshot the plan, run every rule, and since `run_rules` always
returns `Ok(())`, answer `Run(Ok(take_diagnostics()))`.  The invocation
trace is returned alongside for specification purposes. -/
def PluginRunner.handleRun (b : Behavior) (ast : String)
    (c : LintPluginContainer) :
    List Invocation × Response × LintPluginContainer :=
  let res := PluginRunner.run_rules b ast (PluginRunner.get_rules_to_run c) c
  let taken := PluginRunner.take_diagnostics res.2
  (res.1, Response.run (Except.ok taken.1), taken.2)

/-- One iteration of `PluginRunner::run_loop` (plugins.rs lines 126-151):
each received request is fully handled and answered with exactly one
response of the matching variant. -/
def PluginRunner.handleRequest (b : Behavior) (c : LintPluginContainer) :
    Request → Response × LintPluginContainer
  | Request.loadPlugins outcomes =>
    let res := PluginRunner.load_plugins outcomes c
    (Response.loadPlugin res.1, res.2)
  | Request.run ast =>
    let res := PluginRunner.handleRun b ast c
    (res.2.1, res.2.2)

/-- Model of `PluginRunner::run_loop` (plugins.rs lines 123-157): the
inbound queue is the list of requests received before the channel closes
(`recv` returning `None` = end of list); the loop handles them strictly in
sequence and terminates cleanly, returning the responses sent. -/
def PluginRunner.run_loop (b : Behavior) (c : LintPluginContainer) :
    List Request → List Response × LintPluginContainer
  | [] => ([], c)
  | req :: rest =>
    let step := PluginRunner.handleRequest b c req
    let res := PluginRunner.run_loop b step.2 rest
    (step.1 :: res.1, res.2)

/-- The `custom_error("AlreadyClosed", "Plugin host has closed")` built at
plugins.rs lines 334 and 351. -/
def alreadyClosedError : LintError :=
  ⟨"AlreadyClosed", "Plugin host has closed"⟩

/-- Model of the receive path of `PluginRunnerProxy::load_plugins`
(plugins.rs lines 325-334): the argument is what `rx.recv().await` yielded
(`none` = response channel closed).  A `LoadPlugin` response is logged and
the method returns `Ok(())` regardless of the payload (line 332); any other
variant hits `unreachable!()` (line 329), modelled as the outer `none`
(panic); a closed channel yields the `AlreadyClosed` error, with no
retry. -/
def PluginRunnerProxy.load_plugins_recv (received : Option Response) :
    Option (Except LintError Unit) :=
  match received with
  | some (Response.loadPlugin _) => some (Except.ok ())
  | some (Response.run _) => none
  | none => some (Except.error alreadyClosedError)

/-- Model of the receive path of `PluginRunnerProxy::run_rules` (plugins.rs
lines 345-351): a `Run` response's payload is returned as-is; anything else
(closed channel, or a non-`Run` variant, per the `if let` at line 347)
yields the `AlreadyClosed` error, with no retry. -/
def PluginRunnerProxy.run_rules_recv (received : Option Response) :
    Except LintError (List LintDiagnostic) :=
  match received with
  | some (Response.run r) => r
  | _ => Except.error alreadyClosedError

/-- A sequence of `LintPluginContainer::register` calls, applied in order
(each call's `Result` is ignored, only the state evolves). -/
def registerSeq : List (String × LintPluginDesc) → LintPluginContainer →
    LintPluginContainer
  | [], c => c
  | op :: rest, c => registerSeq rest (c.register op.1 op.2).2

/-- The request/response variant pairing of the protocol (plugins.rs lines
34-42): `LoadPlugins` is answered by `LoadPlugin`, `Run` by `Run`. -/
def matchesVariant : Request → Response → Prop
  | Request.loadPlugins _, Response.loadPlugin _ => True
  | Request.run _, Response.run _ => True
  | _, _ => False

theorem contains_fst_eq_isSome_lookup {α : Type} (l : List (String × α))
    (n : String) : (l.map Prod.fst).contains n = (l.lookup n).isSome := by
  induction l with
  | nil => rfl
  | cons p rest ih =>
    obtain ⟨k, v⟩ := p
    simp only [List.map_cons, List.contains_cons, List.lookup_cons]
    cases h : n == k
    · exact ih
    · rfl

theorem register_eq_of_mem (c : LintPluginContainer) (n : String)
    (d : LintPluginDesc) (h : (c.plugins.lookup n).isSome = true) :
    c.register n d =
      (Except.error ⟨"AlreadyExists", n ++ " plugin already exists"⟩, c) := by
  unfold LintPluginContainer.register
  rw [contains_fst_eq_isSome_lookup, h]
  exact if_pos rfl

theorem register_eq_of_not_mem (c : LintPluginContainer) (n : String)
    (d : LintPluginDesc) (h : (c.plugins.lookup n).isSome = false) :
    c.register n d =
      (Except.ok (), { c with plugins := c.plugins ++ [(n, d)] }) := by
  unfold LintPluginContainer.register
  rw [contains_fst_eq_isSome_lookup, h]
  exact if_neg Bool.false_ne_true

theorem register_plugins_of_mem (c : LintPluginContainer) (n : String)
    (d : LintPluginDesc) (h : (c.plugins.lookup n).isSome = true) :
    (c.register n d).2.plugins = c.plugins := by
  rw [register_eq_of_mem c n d h]

theorem register_plugins_of_not_mem (c : LintPluginContainer) (n : String)
    (d : LintPluginDesc) (h : (c.plugins.lookup n).isSome = false) :
    (c.register n d).2.plugins = c.plugins ++ [(n, d)] := by
  rw [register_eq_of_not_mem c n d h]

theorem lookup_registerSeq (ops : List (String × LintPluginDesc))
    (c : LintPluginContainer) (n : String) :
    (registerSeq ops c).plugins.lookup n =
      ((c.plugins.lookup n).or
        ((ops.find? (fun q => q.1 == n)).map Prod.snd)) := by
  induction ops generalizing c with
  | nil => exact Option.or_none.symm
  | cons op rest ih =>
    obtain ⟨m, d⟩ := op
    show (registerSeq rest (c.register m d).2).plugins.lookup n = _
    rw [ih]
    cases hm : (c.plugins.lookup m).isSome
    · rw [register_plugins_of_not_mem c m d hm, List.lookup_append]
      by_cases hnm : m = n
      · subst hnm
        have hc : c.plugins.lookup m = none := by
          cases hq : c.plugins.lookup m
          · rfl
          · rw [hq] at hm; cases hm
        have h1 : (([(m, d)] : List (String × LintPluginDesc)).lookup m) =
            some d := List.lookup_cons_self
        have h2 : (List.find? (fun q => q.1 == m) ((m, d) :: rest)) =
            some (m, d) :=
          List.find?_cons_of_pos rest (beq_self_eq_true m)
        rw [hc, h1, h2]
        rfl
      · have h₁ : (n == m) = false := beq_eq_false_iff_ne.mpr fun e => hnm e.symm
        have h₂ : ¬ (((m, d).1 == n) = true) := by
          rw [beq_eq_false_iff_ne.mpr hnm]
          exact Bool.false_ne_true
        have h3 : (([(m, d)] : List (String × LintPluginDesc)).lookup n) =
            none := by
          rw [List.lookup_cons, h₁]
          rfl
        rw [h3, Option.or_none, List.find?_cons_of_neg rest h₂]
    · rw [register_plugins_of_mem c m d hm]
      by_cases hnm : m = n
      · subst hnm
        obtain ⟨a, ha⟩ := Option.isSome_iff_exists.mp hm
        rw [ha]
        rfl
      · have h₂ : ¬ (((m, d).1 == n) = true) := by
          rw [beq_eq_false_iff_ne.mpr hnm]
          exact Bool.false_ne_true
        rw [List.find?_cons_of_neg rest h₂]

theorem runRulesOfPlugin_trace (b : Behavior) (pn ast : String)
    (rules : List String) (c : LintPluginContainer) :
    (PluginRunner.runRulesOfPlugin b pn ast rules c).1 =
      rules.map (fun rn => Invocation.mk "foo.js" pn rn ast) := by
  induction rules generalizing c with
  | nil => rfl
  | cons r rest ih =>
    simp only [PluginRunner.runRulesOfPlugin, List.map_cons]
    rw [ih]

theorem run_rules_trace (b : Behavior) (ast : String)
    (plan : List (String × List String)) (c : LintPluginContainer) :
    (PluginRunner.run_rules b ast plan c).1 =
      plan.flatMap
        (fun pr => pr.2.map (fun rn => Invocation.mk "foo.js" pr.1 rn ast)) := by
  induction plan generalizing c with
  | nil => rfl
  | cons pr rest ih =>
    simp only [PluginRunner.run_rules, List.flatMap_cons]
    rw [runRulesOfPlugin_trace, ih]

theorem runRulesOfPlugin_quiet (b : Behavior) (pn ast : String)
    (rules : List String) (c : LintPluginContainer)
    (h : ∀ f p r a, (b f p r a).reports = []) :
    (PluginRunner.runRulesOfPlugin b pn ast rules c).2 = c := by
  induction rules generalizing c with
  | nil => rfl
  | cons r rest ih =>
    simp only [PluginRunner.runRulesOfPlugin]
    rw [h]
    exact ih c

theorem run_rules_quiet (b : Behavior) (ast : String)
    (plan : List (String × List String)) (c : LintPluginContainer)
    (h : ∀ f p r a, (b f p r a).reports = []) :
    (PluginRunner.run_rules b ast plan c).2 = c := by
  induction plan generalizing c with
  | nil => rfl
  | cons pr rest ih =>
    simp only [PluginRunner.run_rules]
    rw [runRulesOfPlugin_quiet b pr.1 ast pr.2 c h]
    exact ih c

theorem load_plugins_map_ok (pds : List PluginDefinition)
    (c : LintPluginContainer) :
    PluginRunner.load_plugins (pds.map Except.ok) c =
      (Except.ok (),
        registerSeq (pds.map (fun pd => (pd.name, ⟨pd.rules⟩))) c) := by
  induction pds generalizing c with
  | nil => rfl
  | cons pd rest ih =>
    simp only [List.map_cons, PluginRunner.load_plugins, registerSeq]
    exact ih _

/-- C1: a single `Run` request invokes the bootstrap entry point exactly
once for every `(plugin, rule)` pair of the registry snapshot, in
registration/insertion order of plugins and of rules within each plugin,
and this holds for every engine behavior `b` — in particular a behavior
whose earlier invocations fail does not prevent any later planned
invocation from being attempted. -/
theorem run_rules_complete (b : Behavior) (ast : String)
    (c : LintPluginContainer) :
    (PluginRunner.handleRun b ast c).1 =
      (PluginRunner.get_rules_to_run c).flatMap
        (fun pr => pr.2.map (fun rn => Invocation.mk "foo.js" pr.1 rn ast)) :=
  run_rules_trace b ast (PluginRunner.get_rules_to_run c) c

/-- C2: registering an already-present plugin name returns `AlreadyExists`
and leaves the container unchanged; registering a fresh name appends it and
changes nothing else; and over any sequence of register calls the registry
keeps, for each name, exactly the descriptor of the first successful
registration of that name. -/
theorem register_unique (c : LintPluginContainer) (n : String)
    (d : LintPluginDesc) :
    ((c.plugins.lookup n).isSome = true →
      c.register n d =
        (Except.error ⟨"AlreadyExists", n ++ " plugin already exists"⟩, c)) ∧
    ((c.plugins.lookup n).isSome = false →
      c.register n d =
        (Except.ok (), { c with plugins := c.plugins ++ [(n, d)] })) ∧
    (∀ ops : List (String × LintPluginDesc),
      (registerSeq ops c).plugins.lookup n =
        ((c.plugins.lookup n).or
          ((ops.find? (fun q => q.1 == n)).map Prod.snd))) :=
  ⟨register_eq_of_mem c n d, register_eq_of_not_mem c n d,
    fun ops => lookup_registerSeq ops c n⟩

/-- Witness for `register_unique`: duplicate registration of `"a"` fails
and leaves the state unchanged, fresh registration of `"b"` appends, and
after registering `"c"` twice the registry holds the first descriptor. -/
theorem register_unique_witness :
    ((LintPluginContainer.mk [("a", ⟨[]⟩)] []).register "a" ⟨[("r", 7)]⟩ =
      (Except.error ⟨"AlreadyExists", "a plugin already exists"⟩,
        LintPluginContainer.mk [("a", ⟨[]⟩)] [])) ∧
    ((LintPluginContainer.mk [("a", ⟨[]⟩)] []).register "b" ⟨[]⟩ =
      (Except.ok (),
        LintPluginContainer.mk [("a", ⟨[]⟩), ("b", ⟨[]⟩)] [])) ∧
    ((registerSeq [("c", ⟨[("x", 1)]⟩), ("c", ⟨[]⟩)]
        (LintPluginContainer.mk [] [])).plugins.lookup "c" =
      some ⟨[("x", 1)]⟩) := by
  refine ⟨(register_unique _ "a" ⟨[("r", 7)]⟩).1 rfl,
    (register_unique _ "b" ⟨[]⟩).2.1 rfl, ?_⟩
  rw [(register_unique (LintPluginContainer.mk [] []) "c" ⟨[]⟩).2.2]
  rfl

/-- C3 counterexample: loading two successfully evaluated plugin modules
that both carry the name `"a"` does not surface the `AlreadyExists`
registration failure as the operation's error — the overall result is `Ok`
(the `register` result is discarded by the `let _ =` at plugins.rs line
288) and the registry keeps the first descriptor. -/
theorem load_plugins_counterexample :
    (PluginRunner.load_plugins
        [Except.ok ⟨"a", [("x", 1)]⟩, Except.ok ⟨"a", []⟩]
        (LintPluginContainer.mk [] [])).1 = Except.ok () ∧
    (PluginRunner.load_plugins
        [Except.ok ⟨"a", [("x", 1)]⟩, Except.ok ⟨"a", []⟩]
        (LintPluginContainer.mk [] [])).2 =
      LintPluginContainer.mk [("a", ⟨[("x", 1)]⟩)] [] :=
  ⟨rfl, rfl⟩

/-- C3 (amended): a duplicate plugin name among successfully evaluated
plugin definitions is NOT returned as the error of `load_plugins` — when
every module evaluation succeeds the operation returns `Ok(())` whatever
names occur, the `AlreadyExists` failure being silently discarded, and the
registry keeps, per name, the descriptor from the first registration. -/
theorem load_plugins_discards_register_errors (pds : List PluginDefinition)
    (c : LintPluginContainer) (n : String) :
    (PluginRunner.load_plugins (pds.map Except.ok) c).1 = Except.ok () ∧
    (PluginRunner.load_plugins (pds.map Except.ok) c).2.plugins.lookup n =
      ((c.plugins.lookup n).or
        ((pds.find? (fun pd => pd.name == n)).map
          (fun pd => (⟨pd.rules⟩ : LintPluginDesc)))) := by
  rw [load_plugins_map_ok]
  refine ⟨rfl, ?_⟩
  show (registerSeq (pds.map fun pd => (pd.name, ⟨pd.rules⟩)) c).plugins.lookup n = _
  rw [lookup_registerSeq, List.find?_map, Option.map_map]
  rfl

/-- C4 counterexample: when the Runner answers `LoadPlugin` carrying a
deserialization error, the proxy's `load_plugins` still returns `Ok(())`
(plugins.rs line 332) — the Runner's error is not propagated to the
caller. -/
theorem proxy_load_plugins_counterexample :
    PluginRunnerProxy.load_plugins_recv
        (some (Response.loadPlugin (Except.error
          ⟨"TypeError", "Failed to deserialize plugin"⟩))) =
      some (Except.ok ()) := rfl

/-- C4 (amended): the proxy's `load_plugins` logs and discards the payload
of the `LoadPlugin` response, returning `Ok(())` regardless of whether the
Runner reported success or an error; only a closed channel produces an
error. -/
theorem proxy_load_plugins_discards_error (r : Except LintError Unit) :
    PluginRunnerProxy.load_plugins_recv (some (Response.loadPlugin r)) =
      some (Except.ok ()) := rfl

/-- C5: after a `Run` request is answered the registry's diagnostics buffer
is empty (drained when the response is built), and a second `Run` handled
with a behavior that reports no diagnostics answers with the empty
diagnostic sequence. -/
theorem run_rules_drain (b : Behavior) (ast : String)
    (c : LintPluginContainer) (b' : Behavior) (ast' : String)
    (h : ∀ f p r a, (b' f p r a).reports = []) :
    (PluginRunner.handleRun b ast c).2.2.diagnostics = [] ∧
    (PluginRunner.handleRun b' ast'
        (PluginRunner.handleRun b ast c).2.2).2.1 =
      Response.run (Except.ok []) := by
  constructor
  · rfl
  · have hq := run_rules_quiet b' ast'
      (PluginRunner.get_rules_to_run (PluginRunner.handleRun b ast c).2.2)
      (PluginRunner.handleRun b ast c).2.2 h
    show Response.run (Except.ok
      ((PluginRunner.run_rules b' ast'
        (PluginRunner.get_rules_to_run (PluginRunner.handleRun b ast c).2.2)
        (PluginRunner.handleRun b ast c).2.2).2.diagnostics)) =
      Response.run (Except.ok [])
    rw [hq]
    rfl

/-- Witness for `run_rules_drain`: a first run whose rule reports one
diagnostic leaves the buffer empty afterwards, and a quiet second run
answers with no diagnostics. -/
theorem run_rules_drain_witness :
    (PluginRunner.handleRun
        (fun _ _ _ _ =>
          ⟨[("no-console", "foo.js", "Unexpected console statement")],
            Except.ok ()⟩)
        "A" (LintPluginContainer.mk [("p", ⟨[("r", 0)]⟩)] [])).2.2.diagnostics
      = [] ∧
    (PluginRunner.handleRun (fun _ _ _ _ => ⟨[], Except.ok ()⟩) "B"
        (PluginRunner.handleRun
          (fun _ _ _ _ =>
            ⟨[("no-console", "foo.js", "Unexpected console statement")],
              Except.ok ()⟩)
          "A" (LintPluginContainer.mk [("p", ⟨[("r", 0)]⟩)] [])).2.2).2.1 =
      Response.run (Except.ok []) :=
  run_rules_drain
    (fun _ _ _ _ =>
      ⟨[("no-console", "foo.js", "Unexpected console statement")],
        Except.ok ()⟩)
    "A" (LintPluginContainer.mk [("p", ⟨[("r", 0)]⟩)] [])
    (fun _ _ _ _ => ⟨[], Except.ok ()⟩) "B" (fun _ _ _ _ => rfl)

/-- C6: `op_lint_get_rule` returns the stored callable when both plugin and
rule are registered; fails `NotFound` naming the plugin when the plugin is
missing; and fails `NotFound` naming both plugin and rule when the plugin
exists but the rule does not.  It is a pure lookup on an immutable borrow
and returns no updated container, so it cannot mutate the registry. -/
theorem op_lint_get_rule_spec (c : LintPluginContainer) (p r : String) :
    (c.plugins.lookup p = none →
      op_lint_get_rule c p r =
        Except.error ⟨"NotFound", p ++ " plugin is not registered"⟩) ∧
    (∀ d, c.plugins.lookup p = some d → d.rules.lookup r = none →
      op_lint_get_rule c p r =
        Except.error ⟨"NotFound",
          "Plugin " ++ p ++ ", does not have " ++ r ++ " rule"⟩) ∧
    (∀ d f, c.plugins.lookup p = some d → d.rules.lookup r = some f →
      op_lint_get_rule c p r = Except.ok f) := by
  refine ⟨?_, ?_, ?_⟩
  · intro h
    simp only [op_lint_get_rule, h]
  · intro d hd hr
    simp only [op_lint_get_rule, hd, hr]
  · intro d f hd hf
    simp only [op_lint_get_rule, hd, hf]

/-- Witness for `op_lint_get_rule_spec` on a registry holding plugin `"a"`
with rule `"r"`: missing plugin, missing rule, and successful lookup. -/
theorem op_lint_get_rule_spec_witness :
    (op_lint_get_rule (LintPluginContainer.mk [("a", ⟨[("r", 7)]⟩)] [])
        "b" "r" =
      Except.error ⟨"NotFound", "b plugin is not registered"⟩) ∧
    (op_lint_get_rule (LintPluginContainer.mk [("a", ⟨[("r", 7)]⟩)] [])
        "a" "s" =
      Except.error ⟨"NotFound", "Plugin a, does not have s rule"⟩) ∧
    (op_lint_get_rule (LintPluginContainer.mk [("a", ⟨[("r", 7)]⟩)] [])
        "a" "r" = Except.ok 7) :=
  ⟨(op_lint_get_rule_spec (LintPluginContainer.mk [("a", ⟨[("r", 7)]⟩)] [])
      "b" "r").1 rfl,
   (op_lint_get_rule_spec (LintPluginContainer.mk [("a", ⟨[("r", 7)]⟩)] [])
      "a" "s").2.1 ⟨[("r", 7)]⟩ rfl rfl,
   (op_lint_get_rule_spec (LintPluginContainer.mk [("a", ⟨[("r", 7)]⟩)] [])
      "a" "r").2.2 ⟨[("r", 7)]⟩ 7 rfl rfl⟩

/-- C7: for every `(id, specifier, message)` triple, `op_lint_report`
appends exactly one diagnostic — code `id`, message `message`, specifier
the URL parsed from `"file:///" ++ specifier`, no range, no fixes — and its
panic branch (the `unwrap` on the URL parse) is unreachable, so the op
never fails observably to the calling script. -/
theorem report_appends_one (c : LintPluginContainer)
    (id specifier message : String) :
    op_lint_report c id specifier message =
      some { c with diagnostics := c.diagnostics ++
        [{ specifier := ⟨"file:///" ++ specifier⟩
           range := none
           details :=
             { message := message, code := id, hint := none, fixes := [],
               custom_docs_url := none, info := [] } }] } := by
  unfold op_lint_report LintPluginContainer.report urlParse
  have h : ("file:///".data.isPrefixOf ("file:///" ++ specifier).data) =
      true := by
    simp
  rw [h, if_pos rfl]

/-- C8: a closed response channel (the Runner thread exited before
answering) makes both proxy operations return the error named
`AlreadyClosed` — each consumes exactly one receive and performs no
retry. -/
theorem proxy_already_closed :
    PluginRunnerProxy.load_plugins_recv none =
      some (Except.error alreadyClosedError) ∧
    PluginRunnerProxy.run_rules_recv none =
      Except.error alreadyClosedError ∧
    alreadyClosedError.code = "AlreadyClosed" :=
  ⟨rfl, rfl, rfl⟩

/-- C9: the run loop never has more than one request in flight — it answers
each received request with exactly one response of the matching variant
(`LoadPlugin` for `LoadPlugins`, `Run` for `Run`) before receiving the
next, and terminates cleanly when the inbound queue closes. -/
theorem run_loop_protocol (b : Behavior) (c : LintPluginContainer)
    (reqs : List Request) :
    PluginRunner.run_loop b c [] = ([], c) ∧
    (PluginRunner.run_loop b c reqs).1.length = reqs.length ∧
    List.Forall₂ matchesVariant reqs (PluginRunner.run_loop b c reqs).1 := by
  have hall : ∀ (rs : List Request) (c₀ : LintPluginContainer),
      List.Forall₂ matchesVariant rs (PluginRunner.run_loop b c₀ rs).1 := by
    intro rs
    induction rs with
    | nil => intro c₀; exact List.Forall₂.nil
    | cons req rest ih =>
      intro c₀
      refine List.Forall₂.cons ?_ (ih _)
      cases req
      · exact trivial
      · exact trivial
  exact ⟨rfl, (hall reqs c).length_eq.symm, hall reqs c⟩

/-- C10: every invocation planned by a `Run` request passes the constant
string `"foo.js"` as the file-name argument of the bootstrap entry point,
independent of the AST and the registry contents. -/
theorem run_rules_filename_const (b : Behavior) (ast : String)
    (c : LintPluginContainer) :
    ((PluginRunner.handleRun b ast c).1.all
      (fun inv => inv.fileName == "foo.js")) = true := by
  have h := run_rules_trace b ast (PluginRunner.get_rules_to_run c) c
  show ((PluginRunner.run_rules b ast
      (PluginRunner.get_rules_to_run c) c).1.all
        (fun inv => inv.fileName == "foo.js")) = true
  rw [h, List.all_eq_true]
  intro inv hinv
  rw [List.mem_flatMap] at hinv
  obtain ⟨pr, hpr, hmem⟩ := hinv
  rw [List.mem_map] at hmem
  obtain ⟨rn, hrn, hms⟩ := hmem
  rw [← hms]
  exact beq_self_eq_true "foo.js"
